import Mathlib

/-!
Verification of `password_strength.py` (PasswordAnalyzer).

Strings are modelled as `List Char`.  Python string helpers (`strip`,
`lower`, `upper`, `splitlines`, `split(':')`, `int(...)`) are embedded as
the `py*` functions below; the model covers the ASCII behaviour the
analyzer exercises (the leet table, rule sets, hex digests and response
bodies are all ASCII).  `hashlib.sha1(...).hexdigest()` is an external
library call and is kept abstract: functions that need it take the hex
digest (or a digest function) as an argument.  The network is modelled by
`HttpOutcome`: either a transport-level failure (`requests.RequestException`,
which includes timeouts and connection errors) or a response with a status
code and a text body.
-/

namespace PasswordAnalyzer

/-- Python whitespace stripped by `str.strip()` (ASCII part). -/
def pyIsSpace (c : Char) : Bool :=
  c = ' ' || c = '\t' || c = '\n' || c = '\r' || c = '\x0b' || c = '\x0c'

/-- Python `str.strip()`: drop leading and trailing whitespace. -/
def pyStrip (s : List Char) : List Char :=
  ((s.dropWhile pyIsSpace).reverse.dropWhile pyIsSpace).reverse

/-- Python `str.lower()` (character-wise; ASCII). -/
def pyLower (s : List Char) : List Char := s.map Char.toLower

/-- Python `str.upper()` (character-wise; ASCII). -/
def pyUpper (s : List Char) : List Char := s.map Char.toUpper

/-- Whether `l` starts with `needle` (both as character lists). -/
def startsWithL : List Char → List Char → Bool
  | [], _ => true
  | _ :: _, [] => false
  | a :: as, b :: bs => decide (a = b) && startsWithL as bs

/-- Python `needle in hay`: contiguous-substring containment. -/
def containsList (needle : List Char) : List Char → Bool
  | [] => needle.isEmpty
  | c :: rest => startsWithL needle (c :: rest) || containsList needle rest

/-- Characters that `str.splitlines()` treats as line boundaries. -/
def isLineBoundary (c : Char) : Bool :=
  c = '\n' || c = '\r' || c = '\x0b' || c = '\x0c' || c = '\x1c' ||
  c = '\x1d' || c = '\x1e' || c = '\x85' || c = '\u2028' || c = '\u2029'

/-- Accumulator worker for `pySplitlines` (`acc` holds the current line reversed). -/
def pySplitlinesAux : List Char → List Char → List (List Char)
  | [], acc => if acc.isEmpty then [] else [acc.reverse]
  | '\r' :: '\n' :: rest, acc => acc.reverse :: pySplitlinesAux rest []
  | c :: rest, acc =>
    if isLineBoundary c then acc.reverse :: pySplitlinesAux rest []
    else pySplitlinesAux rest (c :: acc)

/-- Python `str.splitlines()`. -/
def pySplitlines (s : List Char) : List (List Char) := pySplitlinesAux s []

/-- Accumulator worker for `pySplitColon`. -/
def pySplitColonAux : List Char → List Char → List (List Char)
  | [], acc => [acc.reverse]
  | c :: rest, acc =>
    if c = ':' then acc.reverse :: pySplitColonAux rest []
    else pySplitColonAux rest (c :: acc)

/-- Python `line.split(':')`. -/
def pySplitColon (s : List Char) : List (List Char) := pySplitColonAux s []

/-- Digit run of a Python decimal int literal: digits with single
underscores allowed between digits, starting from accumulated value `acc`. -/
def pyParseDigitsAux (acc : Nat) : List Char → Option Nat
  | [] => some acc
  | '_' :: c :: rest =>
    if c.isDigit then pyParseDigitsAux (acc * 10 + (c.toNat - 48)) rest else none
  | c :: rest =>
    if c.isDigit then pyParseDigitsAux (acc * 10 + (c.toNat - 48)) rest else none

/-- Nonempty digit run (first character must be a digit). -/
def pyParseDigits : List Char → Option Nat
  | [] => none
  | c :: rest =>
    if c.isDigit then pyParseDigitsAux (c.toNat - 48) rest else none

/-- Python `int(s)` on decimal literals: strip whitespace, optional sign,
then digits (underscores between digits allowed); `none` models `ValueError`. -/
def pyInt (s : List Char) : Option Int :=
  match pyStrip s with
  | '+' :: rest => (pyParseDigits rest).map (fun n => (n : Int))
  | '-' :: rest => (pyParseDigits rest).map (fun n => -(n : Int))
  | t => (pyParseDigits t).map (fun n => (n : Int))

/-! ## Configuration and rule sets (source lines 18–43) -/

def HIBP_RANGE_API : List Char := "https://api.pwnedpasswords.com/range/".toList

def USER_AGENT : List Char := "PasswordAnalyzer/1.0 (your-email@example.com)".toList

def COMMON_PASSWORDS : List (List Char) :=
  ["123456".toList, "password".toList, "12345678".toList, "qwerty".toList,
   "abc123".toList, "password1".toList, "111111".toList, "123456789".toList,
   "12345".toList, "1234".toList]

def BANNED_SUBSTRINGS : List (List Char) :=
  ["password".toList, "pass".toList, "admin".toList, "qwerty".toList,
   "letmein".toList, "welcome".toList]

/-- The `LEET_MAP` table as a character translation (`str.translate`). -/
def leetTranslate (c : Char) : Char :=
  if c = '@' then 'a'
  else if c = '0' then 'o'
  else if c = '1' then 'l'
  else if c = '3' then 'e'
  else if c = '$' then 's'
  else if c = '5' then 's'
  else if c = '7' then 't'
  else if c = '4' then 'a'
  else if c = '!' then 'i'
  else c

/-! ## Utility functions (source lines 48–85) -/

/-- ASCII letter, the character class `[a-zA-Z]` of the `re.sub` in
`normalise_leet`. -/
def isAsciiLetter (c : Char) : Bool :=
  decide (('a' ≤ c ∧ c ≤ 'z') ∨ ('A' ≤ c ∧ c ≤ 'Z'))

/-- Source `mask_password_for_log` (lines 48–53): `pw[0] + "*"*(len-1)` for
short inputs, `pw[0] + "*"*(len-2) + pw[-1]` otherwise. -/
def mask_password_for_log (pw : List Char) : List Char :=
  match pw with
  | [] => []
  | c :: rest =>
    if (c :: rest).length ≤ 2 then
      c :: List.replicate ((c :: rest).length - 1) '*'
    else
      c :: (List.replicate ((c :: rest).length - 2) '*' ++ [(c :: rest).getLastD '*'])

/-- Source `normalise_leet` (lines 55–58): translate through `LEET_MAP`,
delete every non-`[a-zA-Z]` character, lowercase. -/
def normalise_leet (pw : List Char) : List Char :=
  pyLower ((pw.map leetTranslate).filter isAsciiLetter)

/-- The test `re.search(r"\d\x7b3,\x7d", pw)`: three consecutive digit characters. -/
def threeConsecutiveDigits : List Char → Bool
  | a :: b :: c :: rest =>
    (a.isDigit && b.isDigit && c.isDigit) || threeConsecutiveDigits (b :: c :: rest)
  | _ => false

/-- The test `re.search(r"(.)\1\1", pw)`: one character occurring three times in a
row.  Python `.` does not match a newline, hence the `≠ '\n'` guard. -/
def threeRepeatedChar : List Char → Bool
  | a :: b :: c :: rest =>
    (decide (a ≠ '\n') && decide (a = b) && decide (a = c)) ||
      threeRepeatedChar (b :: c :: rest)
  | _ => false

/-- The literal fragment list of `is_obvious_sequence` (source lines 65–66). -/
def SEQUENCES : List (List Char) :=
  ["1234".toList, "2345".toList, "3456".toList, "4567".toList, "5678".toList,
   "6789".toList, "7890".toList, "qwer".toList, "asdf".toList, "zxcv".toList,
   "abcd".toList, "password".toList]

/-- Source `is_obvious_sequence` (lines 60–71). -/
def is_obvious_sequence (pw : List Char) : Bool :=
  if threeConsecutiveDigits pw then true
  else if threeRepeatedChar pw then true
  else SEQUENCES.any (fun s => containsList s (pyLower pw))

/-- Source `is_common_variant` (lines 73–85). -/
def is_common_variant (password : List Char) : Bool :=
  let pw_lower := pyStrip (pyLower password)
  if pw_lower ∈ COMMON_PASSWORDS then true
  else
    let core := normalise_leet password
    if core ≠ [] ∧ core ∈ COMMON_PASSWORDS then true
    else if BANNED_SUBSTRINGS.any (fun sub => containsList sub core) then true
    else if is_obvious_sequence password then true
    else false

/-! ## HIBP k-anonymity check (source lines 90–111) -/

/-- Result of the single `requests.get` round trip: either a
`requests.RequestException` (timeout, connection error, …) or a response
carrying an HTTP status code and a text body. -/
inductive HttpOutcome where
  | transportError : HttpOutcome
  | response (status : Nat) (body : List Char) : HttpOutcome
deriving DecidableEq, Repr

/-- The HTTP request `check_pwned` issues (source lines 95–96): URL,
`User-Agent` header, and timeout in seconds. -/
structure HttpRequest where
  url : List Char
  userAgentHeader : List Char
  timeoutSeconds : Nat
deriving DecidableEq, Repr

/-- The request built from the hex digest of the password: the URL appends
only the first five characters of the uppercased digest. -/
def pwnedRequest (hexdigest user_agent : List Char) : HttpRequest :=
  ⟨HIBP_RANGE_API ++ (pyUpper hexdigest).take 5, user_agent, 10⟩

/-- The `for line in resp.text.splitlines()` loop of `check_pwned`
(source lines 99–109): skip lines that do not split into exactly two
fields at `:`; on the first line whose (stripped, uppercased) first field
equals the digest suffix, return its parsed count, or `1` if `int(...)`
raises `ValueError`; return `0` if no line matches. -/
def scanPwnedLines (suff : List Char) : List (List Char) → Option Int
  | [] => some 0
  | line :: rest =>
    match pySplitColon line with
    | [p0, p1] =>
      if pyUpper (pyStrip p0) = suff then
        match pyInt (pyStrip p1) with
        | some n => some n
        | none => some 1
      else scanPwnedLines suff rest
    | _ => scanPwnedLines suff rest

/-- Source `check_pwned` (lines 90–111) given the password's SHA-1 hex
digest (`hashlib.sha1(password.encode("utf-8")).hexdigest()`) and the
network outcome.  `none` models Python `None` (the `Unknown` result). -/
def check_pwned (hexdigest : List Char) (outcome : HttpOutcome) : Option Int :=
  let sha1 := pyUpper hexdigest
  let suff := sha1.drop 5
  match outcome with
  | HttpOutcome.transportError => none
  | HttpOutcome.response status body =>
    if status ≠ 200 then none
    else scanPwnedLines suff (pySplitlines body)

/-- From the claim's words (for comparison with the scan loop): a response
line is well-formed (exactly two `:`-separated fields) and its suffix
field equals the computed suffix case-insensitively (the computed suffix
is uppercase, so uppercasing the field decides the comparison). -/
def lineMatches (suff line : List Char) : Bool :=
  match pySplitColon line with
  | [s0, _] => decide (pyUpper (pyStrip s0) = suff)
  | _ => false

/-- From the claim's words: the count a matching line contributes — its
count field parsed as an integer, or `1` when the field is malformed. -/
def lineCount (line : List Char) : Int :=
  match pySplitColon line with
  | [_, c1] =>
    match pyInt (pyStrip c1) with
    | some n => n
    | none => 1
  | _ => 1

/-! ## Scoring (source lines 130–221) -/

/-- Feedback messages appended by the scoring rules (source lines 174–194). -/
inductive FeedbackMsg where
  | tooShort : FeedbackMsg
  | needUpper : FeedbackMsg
  | needLower : FeedbackMsg
  | needDigit : FeedbackMsg
  | needSpecial : FeedbackMsg
deriving DecidableEq, Repr

/-- The strength labels `check_strength` can print and log. -/
inductive Label where
  | veryWeakCommon : Label
  | veryWeakBreached : Label
  | strong : Label
  | moderate : Label
  | weak : Label
deriving DecidableEq, Repr

/-- The test `re.search(r"[A-Z]", password)`. -/
def hasUpper (password : List Char) : Bool :=
  password.any (fun c => decide ('A' ≤ c ∧ c ≤ 'Z'))

/-- The test `re.search(r"[a-z]", password)`. -/
def hasLower (password : List Char) : Bool :=
  password.any (fun c => decide ('a' ≤ c ∧ c ≤ 'z'))

/-- The test `re.search(r"[0-9]", password)`. -/
def hasDigit (password : List Char) : Bool :=
  password.any (fun c => decide ('0' ≤ c ∧ c ≤ '9'))

/-- The special-character class of source line 191. -/
def SPECIAL_CHARS : List Char := "!@#$%^&*(),.?\":\x7b\x7d|<>~`+=_-".toList

/-- The test `re.search(r"[!@#$%^&*(),.?\":\x7b\x7d|<>~`+=_\-]", password)`. -/
def hasSpecial (password : List Char) : Bool :=
  password.any (fun c => SPECIAL_CHARS.contains c)

/-- Length points (source lines 169–174): `+2` for length ≥ 12, `+1` for
length ≥ 8, else nothing (and a "too short" tip). -/
def lengthScore (password : List Char) : Nat :=
  if 12 ≤ password.length then 2
  else if 8 ≤ password.length then 1
  else 0

/-- Stage C of `check_strength` (source lines 166–197): the accumulated
score after the odd-score round-up, with the feedback list in the order
the source appends it. -/
def structural_score (password : List Char) : Nat × List FeedbackMsg :=
  let raw := lengthScore password
      + (if hasUpper password = true then 2 else 0)
      + (if hasLower password = true then 2 else 0)
      + (if hasDigit password = true then 2 else 0)
      + (if hasSpecial password = true then 2 else 0)
  let score := if raw % 2 = 1 then raw + 1 else raw
  let feedback :=
    (if password.length < 8 then [FeedbackMsg.tooShort] else [])
      ++ (if hasUpper password = true then [] else [FeedbackMsg.needUpper])
      ++ (if hasLower password = true then [] else [FeedbackMsg.needLower])
      ++ (if hasDigit password = true then [] else [FeedbackMsg.needDigit])
      ++ (if hasSpecial password = true then [] else [FeedbackMsg.needSpecial])
  (score, feedback)

/-- The label thresholds of source lines 199–204. -/
def strength_label (score : Nat) : Label :=
  if 9 ≤ score then Label.strong
  else if 6 ≤ score then Label.moderate
  else Label.weak

/-- The observable outcome of one `check_strength` evaluation: the score
and label it prints, the Stage C feedback list (empty on the Stage A/B
early returns, which print fixed suggestions instead), the `pwned_count`
value passed to `log_result`, and whether `check_pwned` was invoked. -/
structure EvalResult where
  score : Nat
  label : Label
  feedback : List FeedbackMsg
  loggedPwned : Option Int
  queriedHibp : Bool
deriving DecidableEq, Repr

/-- Steps 2 and 3 of `check_strength` (source lines 147–221), entered only
when the common-variant check did not fire. -/
def stage_bc (password : List Char) (use_hibp : Bool) (pwned_count : Option Int) :
    EvalResult :=
  match pwned_count with
  | some n =>
    if 0 < n then ⟨0, Label.veryWeakBreached, [], some n, use_hibp⟩
    else
      ⟨(structural_score password).1, strength_label (structural_score password).1,
        (structural_score password).2, pwned_count, use_hibp⟩
  | none =>
      ⟨(structural_score password).1, strength_label (structural_score password).1,
        (structural_score password).2, pwned_count, use_hibp⟩

/-- Source `check_strength` (lines 130–221).  `sha1hex` abstracts
`hashlib.sha1(...).hexdigest()`; `oracle` is the network outcome the single
`requests.get` call would observe.  `none` models the empty-password early
return that produces no evaluation. -/
def check_strength (sha1hex : List Char → List Char) (password : List Char)
    (use_hibp : Bool) (oracle : HttpOutcome) : Option EvalResult :=
  if password = [] then none
  else if is_common_variant password = true then
    some ⟨0, Label.veryWeakCommon, [], some 0, false⟩
  else
    some (stage_bc password use_hibp
      (if use_hibp = true then check_pwned (sha1hex password) oracle else none))

/-! ## Helper lemmas -/

/-- Dropping all but the last element of a nonempty list leaves exactly the
last element. -/
theorem drop_length_sub_one (d : Char) (l : List Char) (h : l ≠ []) :
    l.drop (l.length - 1) = [l.getLastD d] := by
  induction l with
  | nil => simp at h
  | cons a t ih =>
    cases t with
    | nil => rfl
    | cons b t2 =>
      have h2 := ih (by simp)
      simp only [List.length_cons, Nat.add_sub_cancel] at h2 ⊢
      rw [List.drop_succ_cons, h2]
      simp [List.getLastD]

/-! ## Claim theorems -/

/-- C4 (counterexample): the spec's example `normalize("P@$$w0rd!") =
"password"` is false on the code: the table maps the trailing `!` to `i`,
so the normalized core keeps a final `i`. -/
theorem normalise_leet_example_counterexample :
    normalise_leet ("P@$$w0rd!".toList) ≠ "password".toList := by decide

/-- C4 (amended): applying the leet substitution table (including `!→i`),
removing every non-ASCII-letter character and lowercasing maps
`"P@$$w0rd!"` to `"passwordi"`. -/
theorem normalise_leet_example_amended :
    normalise_leet ("P@$$w0rd!".toList) = "passwordi".toList := by decide

/-- C7: `mask_password_for_log` maps the empty password to the empty
string, a password of length at most 2 to its first character followed by
`length - 1` mask characters, and any longer password to its first
character, `length - 2` mask characters and its last character; in
particular `mask("ab") = "a*"`, `mask("abcdef") = "a****f"` and
`mask("") = ""`. -/
theorem mask_password_rules (pw : List Char) :
    (pw = [] → mask_password_for_log pw = []) ∧
    (pw ≠ [] → pw.length ≤ 2 →
      mask_password_for_log pw = pw.take 1 ++ List.replicate (pw.length - 1) '*') ∧
    (2 < pw.length →
      mask_password_for_log pw =
        pw.take 1 ++ (List.replicate (pw.length - 2) '*' ++ pw.drop (pw.length - 1))) ∧
    mask_password_for_log ("ab".toList) = "a*".toList ∧
    mask_password_for_log ("abcdef".toList) = "a****f".toList ∧
    mask_password_for_log ([] : List Char) = [] := by
  refine ⟨?_, ?_, ?_, by decide, by decide, by decide⟩
  · intro h; rw [h]; rfl
  · intro hne hlen
    match pw with
    | [] => exact absurd rfl hne
    | c :: rest =>
      rw [mask_password_for_log]
      rw [if_pos hlen]
      rfl
  · intro hlen
    match pw with
    | [] => simp at hlen
    | c :: rest =>
      rw [mask_password_for_log]
      rw [if_neg (by omega)]
      rw [drop_length_sub_one '*' (c :: rest) (by simp)]
      rfl

/-- C7 (witness): the long-password rule applied to `"abcdef"`. -/
theorem mask_password_rules_witness :
    2 < ("abcdef".toList).length ∧
    mask_password_for_log ("abcdef".toList) =
      ("abcdef".toList).take 1 ++
        (List.replicate (("abcdef".toList).length - 2) '*' ++
          ("abcdef".toList).drop (("abcdef".toList).length - 1)) :=
  ⟨by decide, (mask_password_rules ("abcdef".toList)).2.2.1 (by decide)⟩

/-- C8: the pattern detector applied to the empty password is a total
computation (the embedding is a Lean function, so it cannot raise) and
returns `false` — both for `is_common_variant` and for the
`is_obvious_sequence` helper. -/
theorem is_known_weak_empty :
    is_common_variant ([] : List Char) = false ∧
    is_obvious_sequence ([] : List Char) = false := by decide

/-- C2: the request `check_pwned` issues depends only on the first five
characters of the uppercased SHA-1 hex digest: two passwords whose digests
agree on that prefix produce identical URLs, headers and timeouts, so the
35-character suffix never leaves the caller. -/
theorem pwnedRequest_depends_only_on_digest_prefix
    (sha1hex : List Char → List Char) (pw1 pw2 user_agent : List Char)
    (h : (pyUpper (sha1hex pw1)).take 5 = (pyUpper (sha1hex pw2)).take 5) :
    pwnedRequest (sha1hex pw1) user_agent = pwnedRequest (sha1hex pw2) user_agent := by
  simp only [pwnedRequest, h]

/-- C2 (witness): two distinct six-character digests with a common prefix
give the same request. -/
theorem pwnedRequest_depends_only_on_digest_prefix_witness :
    (pyUpper ((fun l => l) ("abcde1".toList))).take 5 =
      (pyUpper ((fun l => l) ("ABCDE2".toList))).take 5 ∧
    pwnedRequest ((fun l => l) ("abcde1".toList)) USER_AGENT =
      pwnedRequest ((fun l => l) ("ABCDE2".toList)) USER_AGENT :=
  ⟨by decide,
   pwnedRequest_depends_only_on_digest_prefix (fun l => l) ("abcde1".toList)
     ("ABCDE2".toList) USER_AGENT (by decide)⟩

/-- C1: on a transport-level failure (`requests.RequestException`: timeout,
connection error) or a non-200 HTTP status, `check_pwned` returns `none`
(the `Unknown` result) and never `some 0`, so `Unknown` and "not breached"
are distinct outcomes. -/
theorem check_pwned_failure_is_unknown (hexdigest body : List Char) (status : Nat) :
    check_pwned hexdigest HttpOutcome.transportError = none ∧
    check_pwned hexdigest HttpOutcome.transportError ≠ some 0 ∧
    (status ≠ 200 → check_pwned hexdigest (HttpOutcome.response status body) = none) ∧
    (status ≠ 200 → check_pwned hexdigest (HttpOutcome.response status body) ≠ some 0) := by
  refine ⟨rfl, by simp [check_pwned], ?_, ?_⟩
  · intro h
    simp [check_pwned, h]
  · intro h
    simp [check_pwned, h]

/-- C1 (witness): a concrete failing endpoint — a timeout and a 404 — both
yield `Unknown`, not `Count(0)`. -/
theorem check_pwned_failure_is_unknown_witness :
    check_pwned ("d".toList) (HttpOutcome.response 404 ("AA:1".toList)) = none ∧
    check_pwned ("d".toList) (HttpOutcome.response 404 ("AA:1".toList)) ≠ some 0 :=
  ⟨(check_pwned_failure_is_unknown ("d".toList) ("AA:1".toList) 404).2.2.1 (by decide),
   (check_pwned_failure_is_unknown ("d".toList) ("AA:1".toList) 404).2.2.2 (by decide)⟩

/-- The scan loop of `check_pwned` returns, on any line list, the count of
the first well-formed matching line (`find?`), `1` for a malformed count
field, and `0` when no line matches. -/
theorem scanPwnedLines_eq_find (suff : List Char) (ls : List (List Char)) :
    scanPwnedLines suff ls =
      some (match ls.find? (lineMatches suff) with
            | none => 0
            | some line => lineCount line) := by
  induction ls with
  | nil => rfl
  | cons line rest ih =>
    match hsplit : pySplitColon line with
    | [] =>
      have hm : ¬ lineMatches suff line = true := by simp [lineMatches, hsplit]
      rw [List.find?_cons_of_neg _ hm]
      simp [scanPwnedLines, hsplit, ih]
    | [s0] =>
      have hm : ¬ lineMatches suff line = true := by simp [lineMatches, hsplit]
      rw [List.find?_cons_of_neg _ hm]
      simp [scanPwnedLines, hsplit, ih]
    | s0 :: s1 :: s2 :: t =>
      have hm : ¬ lineMatches suff line = true := by simp [lineMatches, hsplit]
      rw [List.find?_cons_of_neg _ hm]
      simp [scanPwnedLines, hsplit, ih]
    | [s0, s1] =>
      by_cases he : pyUpper (pyStrip s0) = suff
      · have hm : lineMatches suff line = true := by simp [lineMatches, hsplit, he]
        rw [List.find?_cons_of_pos _ hm]
        match hint : pyInt (pyStrip s1) with
        | some n => simp [scanPwnedLines, hsplit, he, hint, lineCount]
        | none => simp [scanPwnedLines, hsplit, he, hint, lineCount]
      · have hm : ¬ lineMatches suff line = true := by simp [lineMatches, hsplit, he]
        rw [List.find?_cons_of_neg _ hm]
        simp [scanPwnedLines, hsplit, he, ih]

/-- C3 (counterexample): the claim says the count returned on a 200
response is "parsed as a non-negative integer" and "never negative", but
Python `int` accepts a sign: on the digest of the password `"password"`
and a body whose matching line carries count field `-5`, `check_pwned`
returns the negative count `-5`. -/
theorem check_pwned_negative_count_counterexample :
    check_pwned ("5baa61e4c9b93f3f0682250b6cf8331b7ee68fd8".toList)
        (HttpOutcome.response 200
          ("1E4C9B93F3F0682250B6CF8331B7EE68FD8:-5".toList)) = some (-5) ∧
    (-5 : Int) < 0 := by
  constructor
  · rfl
  · decide

/-- C3 (amended): on an HTTP 200 response, `check_pwned` always returns a
count (never `Unknown`): the count field of the first well-formed
`SUFFIX:COUNT` line whose suffix equals the computed suffix
case-insensitively, parsed as a (possibly signed) integer; `1` if that
count field is malformed; `0` if no line's suffix matches.  A negative
count field therefore yields a negative count. -/
theorem check_pwned_response_scan_spec (hexdigest body : List Char) :
    check_pwned hexdigest (HttpOutcome.response 200 body) =
      some (match (pySplitlines body).find? (lineMatches ((pyUpper hexdigest).drop 5)) with
            | none => 0
            | some line => lineCount line) := by
  rw [check_pwned]
  simp only [if_neg (by decide : ¬ (200 : Nat) ≠ 200)]
  exact scanPwnedLines_eq_find _ _

/-- C5: for every password, the Stage C structural score (after the
odd-score round-up) is an even integer in `[0, 10]`. -/
theorem structural_score_even_le_ten (password : List Char) :
    (structural_score password).1 % 2 = 0 ∧ (structural_score password).1 ≤ 10 := by
  unfold structural_score
  by_cases hU : hasUpper password = true <;>
  by_cases hL : hasLower password = true <;>
  by_cases hD : hasDigit password = true <;>
  by_cases hS : hasSpecial password = true <;>
  by_cases h12 : 12 ≤ password.length <;>
  by_cases h8 : 8 ≤ password.length <;>
  simp [lengthScore, hU, hL, hD, hS, h12, h8]

/-- C6: `is_common_variant` is exactly the (order-independent) disjunction
of the four conditions: exact membership of the lowercased, trimmed
password in the common set; a non-empty leet-normalized core in the common
set; a banned substring inside the normalized core; an obvious-sequence
shape.  In particular every common-set member, in any letter case and with
surrounding whitespace, is flagged. -/
theorem is_common_variant_disjunction (password : List Char) :
    (is_common_variant password = true ↔
      (pyStrip (pyLower password) ∈ COMMON_PASSWORDS ∨
        (normalise_leet password ≠ [] ∧ normalise_leet password ∈ COMMON_PASSWORDS) ∨
        (∃ sub ∈ BANNED_SUBSTRINGS, containsList sub (normalise_leet password) = true) ∨
        is_obvious_sequence password = true)) ∧
    (pyStrip (pyLower password) ∈ COMMON_PASSWORDS → is_common_variant password = true) := by
  have main : is_common_variant password = true ↔
      (pyStrip (pyLower password) ∈ COMMON_PASSWORDS ∨
        (normalise_leet password ≠ [] ∧ normalise_leet password ∈ COMMON_PASSWORDS) ∨
        (∃ sub ∈ BANNED_SUBSTRINGS, containsList sub (normalise_leet password) = true) ∨
        is_obvious_sequence password = true) := by
    unfold is_common_variant
    by_cases h1 : pyStrip (pyLower password) ∈ COMMON_PASSWORDS <;>
    by_cases h2 : normalise_leet password = [] <;>
    by_cases h2b : normalise_leet password ∈ COMMON_PASSWORDS <;>
    by_cases h3 : ∃ sub ∈ BANNED_SUBSTRINGS, containsList sub (normalise_leet password) = true <;>
    by_cases h4 : is_obvious_sequence password = true <;>
    simp [h1, h2, h2b, h3, h4, List.any_eq_true]
  exact ⟨main, fun h => main.mpr (Or.inl h)⟩

/-- C6 (witness): `"  QWERTY "` — a common-set member in upper case with
surrounding whitespace — is flagged as a known-weak variant. -/
theorem is_common_variant_disjunction_witness :
    pyStrip (pyLower ("  QWERTY ".toList)) ∈ COMMON_PASSWORDS ∧
    is_common_variant ("  QWERTY ".toList) = true :=
  ⟨by decide, (is_common_variant_disjunction ("  QWERTY ".toList)).2 (by decide)⟩

/-- C9: a password flagged by the common-variant check is rejected at
Stage A for every HIBP flag and every network oracle: `check_pwned` is
never consulted (`queriedHibp = false`) and the outcome is the constant
record with score `0`, the common-pattern Very Weak label, and a log entry
with pwned count `0`. -/
theorem check_strength_common_short_circuit (sha1hex : List Char → List Char)
    (password : List Char) (use_hibp : Bool) (oracle : HttpOutcome)
    (h : is_common_variant password = true) :
    check_strength sha1hex password use_hibp oracle =
      some ⟨0, Label.veryWeakCommon, [], some 0, false⟩ := by
  have hne : password ≠ [] := by
    intro he
    rw [he] at h
    exact absurd h (by decide)
  rw [check_strength, if_neg hne, if_pos h]

/-- C9 (witness): `"123456"` is rejected at Stage A under a failing oracle
and an inert digest function, with the breach checker unqueried. -/
theorem check_strength_common_short_circuit_witness :
    is_common_variant ("123456".toList) = true ∧
    check_strength (fun _ => []) ("123456".toList) true HttpOutcome.transportError =
      some ⟨0, Label.veryWeakCommon, [], some 0, false⟩ :=
  ⟨by decide,
   check_strength_common_short_circuit (fun _ => []) ("123456".toList) true
     HttpOutcome.transportError (by decide)⟩

/-- The Stage C label thresholds only produce `weak`, `moderate` or
`strong`. -/
theorem strength_label_mem (s : Nat) :
    strength_label s = Label.weak ∨ strength_label s = Label.moderate ∨
      strength_label s = Label.strong := by
  unfold strength_label
  split
  · exact Or.inr (Or.inr rfl)
  · split
    · exact Or.inr (Or.inl rfl)
    · exact Or.inl rfl

/-- C10: a returned evaluation carries a Very Weak label exactly when
Stage A fired (common variant) or Stage B fired (HIBP enabled and a
positive breach count); any record that is not a Stage A/B rejection and
has score `0` is labeled `weak`; and the Stage C thresholds only ever
assign `weak`, `moderate` or `strong`. -/
theorem very_weak_only_stage_ab (sha1hex : List Char → List Char) (password : List Char)
    (use_hibp : Bool) (oracle : HttpOutcome) (r : EvalResult)
    (h : check_strength sha1hex password use_hibp oracle = some r) :
    ((r.label = Label.veryWeakCommon ∨ r.label = Label.veryWeakBreached) ↔
      (is_common_variant password = true ∨
        (use_hibp = true ∧
          ∃ n : Int, check_pwned (sha1hex password) oracle = some n ∧ 0 < n))) ∧
    (r.label ≠ Label.veryWeakCommon → r.label ≠ Label.veryWeakBreached →
      r.score = 0 → r.label = Label.weak) ∧
    (strength_label (structural_score password).1 = Label.weak ∨
      strength_label (structural_score password).1 = Label.moderate ∨
      strength_label (structural_score password).1 = Label.strong) := by
  by_cases hemp : password = []
  · rw [hemp] at h
    simp [check_strength] at h
  · rw [check_strength, if_neg hemp] at h
    by_cases hc : is_common_variant password = true
    · rw [if_pos hc] at h
      have hr : (⟨0, Label.veryWeakCommon, [], some 0, false⟩ : EvalResult) = r :=
        Option.some.inj h
      subst hr
      refine ⟨?_, ?_, strength_label_mem _⟩
      · exact ⟨fun _ => Or.inl hc, fun _ => Or.inl rfl⟩
      · intro hne _ _
        exact absurd rfl hne
    · rw [if_neg hc] at h
      have hbc := Option.some.inj h
      have hstageC : ∀ pc : Option Int,
          ¬ (use_hibp = true ∧
              ∃ n : Int, check_pwned (sha1hex password) oracle = some n ∧ 0 < n) →
          (⟨(structural_score password).1, strength_label (structural_score password).1,
            (structural_score password).2, pc, use_hibp⟩ : EvalResult) = r →
          ((r.label = Label.veryWeakCommon ∨ r.label = Label.veryWeakBreached) ↔
            (is_common_variant password = true ∨
              (use_hibp = true ∧
                ∃ n : Int, check_pwned (sha1hex password) oracle = some n ∧ 0 < n))) ∧
          (r.label ≠ Label.veryWeakCommon → r.label ≠ Label.veryWeakBreached →
            r.score = 0 → r.label = Label.weak) ∧
          (strength_label (structural_score password).1 = Label.weak ∨
            strength_label (structural_score password).1 = Label.moderate ∨
            strength_label (structural_score password).1 = Label.strong) := by
        intro pc hno hr
        subst hr
        refine ⟨?_, ?_, strength_label_mem _⟩
        · constructor
          · intro hl
            exfalso
            rcases hl with h' | h' <;>
              rcases strength_label_mem (structural_score password).1 with hm | hm | hm <;>
              simp_all
          · rintro (hcv | hbr)
            · exact absurd hcv hc
            · exact absurd hbr hno
        · intro _ _ h0
          have h0x : (structural_score password).1 = 0 := h0
          show strength_label (structural_score password).1 = Label.weak
          rw [h0x]
          decide
      by_cases hu : use_hibp = true
      · rw [if_pos hu] at hbc
        obtain ⟨pc, hpcdef⟩ : ∃ pc, check_pwned (sha1hex password) oracle = pc := ⟨_, rfl⟩
        rw [hpcdef] at hbc
        cases pc with
        | some n =>
          by_cases hn : 0 < n
          · rw [stage_bc, if_pos hn] at hbc
            subst hbc
            refine ⟨?_, ?_, strength_label_mem _⟩
            · exact ⟨fun _ => Or.inr ⟨hu, n, hpcdef, hn⟩, fun _ => Or.inr rfl⟩
            · intro _ hne _
              exact absurd rfl hne
          · rw [stage_bc, if_neg hn] at hbc
            refine hstageC (some n) ?_ hbc
            rintro ⟨_, m, hm, hmpos⟩
            rw [hpcdef] at hm
            exact hn (Option.some.inj hm ▸ hmpos)
        | none =>
          rw [stage_bc] at hbc
          refine hstageC none ?_ hbc
          rintro ⟨_, m, hm, _⟩
          rw [hpcdef] at hm
          exact Option.noConfusion hm
      · rw [if_neg hu] at hbc
        rw [stage_bc] at hbc
        refine hstageC none ?_ hbc
        rintro ⟨hu', _⟩
        exact absurd hu' hu

/-- C10 (witness): a concrete Stage C evaluation (short non-common
password, HIBP disabled). -/
theorem very_weak_only_stage_ab_witness :
    strength_label (structural_score ("zq".toList)).1 = Label.weak ∨
    strength_label (structural_score ("zq".toList)).1 = Label.moderate ∨
    strength_label (structural_score ("zq".toList)).1 = Label.strong :=
  (very_weak_only_stage_ab (fun _ => []) ("zq".toList) false HttpOutcome.transportError
    ⟨2, Label.weak,
      [FeedbackMsg.tooShort, FeedbackMsg.needUpper, FeedbackMsg.needDigit,
        FeedbackMsg.needSpecial], none, false⟩ (by decide)).2.2

end PasswordAnalyzer
